import Mathlib

/-!
Verification development for the `GetLogFile` cache action of
`services/ui_backend_service/data/cache/get_log_file_action.py`.

The Python source is shallowly embedded below.  Conventions used by the
embedding:

* Python `int` values appearing here are natural numbers in the documented
  domain of the action (`limit ≥ 0`, `page ≥ 1`, sizes ≥ 0); where a value is
  rendered into a string we model CPython decimal rendering explicitly.
* Python `str.format` interpolation is modelled by string concatenation;
  `str(True)`/`str(False)` render as `"True"`/`"False"`.
* `hashlib.sha1(...).hexdigest()` is modelled by a full SHA-1 implementation
  over the UTF-8 bytes of the input string (`sha1Nat` / `sha1Hexdigest`).
* Python dictionaries that the action reads and writes (`existing_keys`,
  `results`) are association lists keyed by strings, with dict-style
  replace-or-append assignment (`insertKV`) and lookup (`lookupKV`).
* `json.dumps`/`json.loads` round-trip structured values; the embedding
  represents a serialized value by the structured value itself (`CacheValue`),
  so serialization is the identity and `.get("log_size", None)` becomes a
  total projection returning `Option`.
* Exceptions (`KeyError` from missing task fields, metaflow client failures)
  are modelled by `Option`: `none` is a raised exception, so functions that
  can raise return `Option _`.
* The metaflow `Task` client object (an external collaborator) is an oracle
  `TaskOracle`: pathspec and attempt resolve to a `TaskEnv` carrying the
  observable quantities the action reads (sizes, metadata dictionary, legacy
  blob loader, modern logline iterator), or to `none` (task unavailable).
* A Python `datetime` enters this code only through
  `_datetime_to_epoch`, i.e. through `int(datetime.timestamp() * 1000)`
  guarded by `try/except`.  The embedding abstracts a datetime as the
  `Option Int` outcome of that conversion (`Dt.timestampMs`): `some ms` when
  the float arithmetic succeeds, `none` when it raises.
-/

/-! ### CPython decimal rendering of natural numbers

`natToChars` is fuel-based so that it is structurally recursive and reduces
inside `decide`/`rfl`; `natRepr n` supplies fuel `n + 1`, which is always
sufficient since the recursion argument drops at least to `n / 10`. -/

def decDigitChar (d : Nat) : Char :=
  match d with
  | 0 => '0'
  | 1 => '1'
  | 2 => '2'
  | 3 => '3'
  | 4 => '4'
  | 5 => '5'
  | 6 => '6'
  | 7 => '7'
  | 8 => '8'
  | _ => '9'

def charDigitVal (c : Char) : Nat :=
  if c = '0' then 0 else if c = '1' then 1 else if c = '2' then 2
  else if c = '3' then 3 else if c = '4' then 4 else if c = '5' then 5
  else if c = '6' then 6 else if c = '7' then 7 else if c = '8' then 8 else 9

def natToChars (fuel : Nat) (n : Nat) : List Char :=
  match fuel with
  | 0 => []
  | fuel + 1 =>
    if n < 10 then [decDigitChar n]
    else natToChars fuel (n / 10) ++ [decDigitChar (n % 10)]

def natRepr (n : Nat) : String :=
  String.mk (natToChars (n + 1) n)

/-- CPython `str` of a `bool`. -/
def pyBoolRepr (b : Bool) : String :=
  if b then "True" else "False"

/-! ### UTF-8 and SHA-1 (`_string.encode('utf-8')`, `hashlib.sha1(...).hexdigest()`) -/

def utf8CharBytes (c : Char) : List Nat :=
  let n := c.toNat
  if n < 128 then [n]
  else if n < 2048 then [192 + n / 64, 128 + n % 64]
  else if n < 65536 then [224 + n / 4096, 128 + (n / 64) % 64, 128 + n % 64]
  else [240 + n / 262144, 128 + (n / 4096) % 64, 128 + (n / 64) % 64, 128 + n % 64]

def utf8Bytes (s : String) : List Nat :=
  s.data.foldr (fun c acc => utf8CharBytes c ++ acc) []

/-- 32-bit left rotation on `Nat` values below `2 ^ 32`. -/
def rotl32 (k w : Nat) : Nat :=
  ((w <<< k) ||| (w >>> (32 - k))) % 4294967296

/-- SHA-1 message padding: append `0x80`, zeros to 56 mod 64 bytes, then the
big-endian 64-bit bit length. -/
def sha1Pad (msg : List Nat) : List Nat :=
  let ml := 8 * msg.length
  msg ++ 128 :: List.replicate ((119 - msg.length % 64) % 64) 0 ++
    [(ml >>> 56) % 256, (ml >>> 48) % 256, (ml >>> 40) % 256, (ml >>> 32) % 256,
     (ml >>> 24) % 256, (ml >>> 16) % 256, (ml >>> 8) % 256, ml % 256]

def sha1Chunks (l : List Nat) : List (List Nat) :=
  if h : l = [] then []
  else l.take 64 :: sha1Chunks (l.drop 64)
termination_by l.length
decreasing_by
  simp only [List.length_drop]
  have : 0 < l.length := List.length_pos.mpr h
  omega

/-- Big-endian 32-bit words of a chunk. -/
def bytesToWords (l : List Nat) : List Nat :=
  match l with
  | b0 :: b1 :: b2 :: b3 :: rest =>
    (((b0 * 256 + b1) * 256 + b2) * 256 + b3) :: bytesToWords rest
  | _ => []

/-- Extended message schedule `w[i]` of a chunk. -/
def sha1W (ws : List Nat) (i : Nat) : Nat :=
  if h : i < 16 then ws.getD i 0
  else rotl32 1 (sha1W ws (i - 3) ^^^ sha1W ws (i - 8) ^^^ sha1W ws (i - 14) ^^^ sha1W ws (i - 16))
termination_by i
decreasing_by all_goals omega

def sha1F (i b c d : Nat) : Nat :=
  if i < 20 then (b &&& c) ||| ((b ^^^ 4294967295) &&& d)
  else if i < 40 then b ^^^ c ^^^ d
  else if i < 60 then (b &&& c) ||| (b &&& d) ||| (c &&& d)
  else b ^^^ c ^^^ d

def sha1K (i : Nat) : Nat :=
  if i < 20 then 1518500249
  else if i < 40 then 1859775393
  else if i < 60 then 2400959708
  else 3395469782

abbrev Sha1State := Nat × Nat × Nat × Nat × Nat

def sha1Round (ws : List Nat) (st : Sha1State) (i : Nat) : Sha1State :=
  let temp := (rotl32 5 st.1 + sha1F i st.2.1 st.2.2.1 st.2.2.2.1 + st.2.2.2.2 +
    sha1K i + sha1W ws i) % 4294967296
  (temp, st.1, rotl32 30 st.2.1, st.2.2.1, st.2.2.2.1)

def sha1Chunk (h : Sha1State) (chunk : List Nat) : Sha1State :=
  let ws := bytesToWords chunk
  let f := (List.range 80).foldl (sha1Round ws) h
  ((h.1 + f.1) % 4294967296,
   (h.2.1 + f.2.1) % 4294967296,
   (h.2.2.1 + f.2.2.1) % 4294967296,
   (h.2.2.2.1 + f.2.2.2.1) % 4294967296,
   (h.2.2.2.2 + f.2.2.2.2) % 4294967296)

def sha1Init : Sha1State :=
  (1732584193, 4023233417, 2562383102, 271733878, 3285377520)

def sha1Final (msg : List Nat) : Sha1State :=
  (sha1Chunks (sha1Pad msg)).foldl sha1Chunk sha1Init

/-- The 160-bit SHA-1 digest of a byte sequence, as a natural number. -/
def sha1Nat (msg : List Nat) : Nat :=
  let f := sha1Final msg
  f.1 * 340282366920938463463374607431768211456 +
    f.2.1 * 79228162514264337593543950336 +
    f.2.2.1 * 18446744073709551616 +
    f.2.2.2.1 * 4294967296 +
    f.2.2.2.2

def hexDigitChar (d : Nat) : Char :=
  if d < 10 then decDigitChar d
  else if d = 10 then 'a' else if d = 11 then 'b' else if d = 12 then 'c'
  else if d = 13 then 'd' else if d = 14 then 'e' else 'f'

/-- 40-character lowercase hex rendering of a 160-bit value, most significant
nibble first. -/
def hex40 (n : Nat) : String :=
  String.mk ((List.range 40).map (fun i => hexDigitChar ((n >>> (4 * (39 - i))) % 16)))

/-- `hashlib.sha1(s.encode('utf-8')).hexdigest()`. -/
def sha1Hexdigest (s : String) : String :=
  hex40 (sha1Nat (utf8Bytes s))

/-! ### Task dictionaries and cache-key derivation -/

/-- The task dictionary passed to the action.  Values that CPython would hold
as `str` or `int` are stored in rendered string form (`run_number = 1234` is
stored as `"1234"`); only `run_id` and `task_name` ever have their Python
truthiness consulted (via `or`), and those are strings in the source data
model.  `attempt_id` is kept numeric because `execute` applies `int(...)` to
it.  A `none` field is an absent dictionary key. -/
structure TaskDict where
  flow_id : Option String := none
  run_number : Option String := none
  run_id : Option String := none
  step_name : Option String := none
  task_id : Option String := none
  task_name : Option String := none
  attempt_id : Option Nat := none
deriving DecidableEq, Repr

/-- Python `a or b` for an optional string `a` (`dict.get`) and a mandatory
lookup `b` (`dict[...]`): `a` is kept iff it is present and truthy (non-empty);
otherwise the result is `b`, whose absence is a `KeyError`. -/
def pyOrStr (a : Option String) (b : Option String) : Option String :=
  match a with
  | some s => if s = "" then b else some s
  | none => b

def pathspec_for_task (task : TaskDict) : Option String :=
  match task.flow_id, pyOrStr task.run_id task.run_number,
        task.step_name, pyOrStr task.task_name task.task_id with
  | some flow, some run, some step, some tname =>
    some (flow ++ "/" ++ run ++ "/" ++ step ++ "/" ++ tname)
  | _, _, _, _ => none

def STDOUT : String := "log_location_stdout"

def STDERR : String := "log_location_stderr"

def log_cache_id (task : TaskDict) (logtype : String) : Option String :=
  (pathspec_for_task task).map (fun ps =>
    "log:file:" ++ ps ++ "." ++ natRepr (task.attempt_id.getD 0) ++ "." ++ logtype)

/-- The `_string` local of `lookup_id` in the source: the SHA-1 preimage
`"{file}_{limit}_{page}_{reverse}_{raw}"`. -/
def lookup_string (task : TaskDict) (logtype : String) (limit page : Nat)
    (reverse_order raw_log : Bool) : Option String :=
  (log_cache_id task logtype).map (fun file =>
    file ++ "_" ++ natRepr limit ++ "_" ++ natRepr page ++ "_" ++
      pyBoolRepr reverse_order ++ "_" ++ pyBoolRepr raw_log)

def lookup_id (task : TaskDict) (logtype : String) (limit page : Nat)
    (reverse_order raw_log : Bool) : Option String :=
  (lookup_string task logtype limit page reverse_order raw_log).map sha1Hexdigest

def log_result_id (task : TaskDict) (logtype : String) (limit page : Nat)
    (reverse_order raw_log : Bool) : Option String :=
  (lookup_id task logtype limit page reverse_order raw_log).map
    (fun i => "log:result:" ++ i)

/-! ### Log normalization (`get_log_size`, `get_log_content`) -/

/-- A Python `datetime` as observed through `_datetime_to_epoch`: the
`Option Int` outcome of `int(datetime.timestamp() * 1000)`, `none` when the
conversion raises. -/
structure Dt where
  timestampMs : Option Int
deriving DecidableEq, Repr

/-- The observable surface of the metaflow `Task` client object for one task
attempt. -/
structure TaskEnv where
  stdout_size : Nat
  stderr_size : Nat
  metadata_dict : String → Option String
  load_log_legacy : String → String → String
  loglines : String → List (Dt × String)

/-- `Task(pathspec, attempt=...)` resolution: `none` is an unavailable task
(the client raises). -/
abbrev TaskOracle := String → Nat → Option TaskEnv

def get_log_size (task : TaskEnv) (logtype : String) : Nat :=
  if logtype = STDERR then task.stderr_size else task.stdout_size

def _datetime_to_epoch (dt : Dt) : Option Int :=
  dt.timestampMs

/-- Python `str.split("\n")` on the raw character list: the separator-free
segments between newlines, with `""` splitting to `[""]`. -/
def splitNlChars : List Char → List (List Char)
  | [] => [[]]
  | c :: rest =>
    match splitNlChars rest with
    | [] => []
    | h :: t => if c = '\x0a' then [] :: h :: t else (c :: h) :: t

/-- Python `blob.split("\n")`. -/
def pySplitNewlines (s : String) : List String :=
  (splitNlChars s.data).map String.mk

/-- `get_log_content`: Python takes the legacy branch iff
`task.metadata_dict.get('log_location_' + stream)` is truthy, i.e. present and
non-empty — a present empty string falls through to the modern branch. -/
def get_log_content (task : TaskEnv) (logtype : String) : List (Option Int × String) :=
  let stream := if logtype = STDERR then "stderr" else "stdout"
  match task.metadata_dict ("log_location_" ++ stream) with
  | some log_location =>
    if log_location ≠ "" then
      (pySplitNewlines (task.load_log_legacy log_location stream)).map
        (fun line => ((none : Option Int), line))
    else
      (task.loglines stream).map (fun dl => (_datetime_to_epoch dl.1, dl.2))
  | none =>
    (task.loglines stream).map (fun dl => (_datetime_to_epoch dl.1, dl.2))

/-! ### Pagination (`format_loglines`, `paginated_result`) -/

structure LogLine where
  row : Nat
  timestamp : Option Int
  line : String
deriving DecidableEq, Repr

inductive PageContent where
  | lines (l : List LogLine)
  | raw (s : String)
deriving DecidableEq, Repr

structure PaginatedResult where
  content : PageContent
  pages : Nat
deriving DecidableEq, Repr

def format_loglines (content : List (Option Int × String)) (page : Nat)
    (limit : Nat) (reverse : Bool) : List LogLine × Nat :=
  let lines := content.enum.map (fun rl => LogLine.mk rl.1 rl.2.1 rl.2.2)
  let off := limit * (page - 1)
  let pages := if limit ≠ 0 then max (lines.length / limit) 1 else 1
  if pages < page then ([], pages)
  else
    let lines1 := if reverse then lines.reverse else lines
    let lines2 := if limit ≠ 0 then (lines1.drop off).take limit else lines1
    (lines2, pages)

def paginated_result (content : List (Option Int × String)) (page : Nat)
    (limit : Nat) (reverse_order : Bool) (output_raw : Bool) : PaginatedResult :=
  if output_raw = false then
    let lp := format_loglines content page limit reverse_order
    { content := PageContent.lines lp.1, pages := lp.2 }
  else
    { content := PageContent.raw (String.intercalate "\n" (content.map (fun dl => dl.2))),
      pages := 1 }

/-! ### The action contract (`format_request`, `execute`, `response`) -/

/-- A value held by the cache store, in structured (deserialized) form: either
the `{"log_size": ..., "content": ...}` object stored under a `log:file:` key,
or the `{"content": ..., "pages": ...}` object stored under a `log:result:`
key. -/
inductive CacheValue where
  | logFile (log_size : Nat) (content : List (Option Int × String))
  | pageResult (res : PaginatedResult)
deriving DecidableEq, Repr

/-- `json.loads(v).get("log_size", None)`. -/
def cacheLogSize : CacheValue → Option Nat
  | CacheValue.logFile s _ => some s
  | CacheValue.pageResult _ => none

/-- `json.loads(v)["content"]` on a `log:file:` value. -/
def cacheContent : CacheValue → Option (List (Option Int × String))
  | CacheValue.logFile _ c => some c
  | CacheValue.pageResult _ => none

abbrev KVMap := List (String × CacheValue)

def lookupKV (m : KVMap) (k : String) : Option CacheValue :=
  (m.find? (fun kv => kv.1 == k)).map (fun kv => kv.2)

/-- Python dict assignment `m[k] = v`: replace in place when the key exists,
append otherwise. -/
def insertKV (m : KVMap) (k : String) (v : CacheValue) : KVMap :=
  if (m.find? (fun kv => kv.1 == k)).isSome then
    m.map (fun kv => if kv.1 == k then (k, v) else kv)
  else m ++ [(k, v)]

structure LogMessage where
  task : TaskDict
  logtype : String
  limit : Nat
  page : Nat
  reverse_order : Bool
  raw_log : Bool
deriving DecidableEq, Repr

/-- `GetLogFile.format_request`: the message, the keys to prefetch, the stream
key, the keys to await, and the pass-through `invalidate_cache` flag.  `none`
when key derivation raises on a malformed task dictionary. -/
def format_request (task : TaskDict) (logtype : String) (limit page : Nat)
    (reverse_order raw_log invalidate_cache : Bool) :
    Option (LogMessage × List String × String × List String × Bool) :=
  let msg : LogMessage :=
    { task := task, logtype := logtype, limit := limit, page := page,
      reverse_order := reverse_order, raw_log := raw_log }
  match log_cache_id task logtype,
        log_result_id task logtype limit page reverse_order raw_log,
        lookup_id task logtype limit page reverse_order raw_log with
  | some log_key, some result_key, some lid =>
    some (msg, [log_key, result_key], "log:stream:" ++ lid,
          ["log:stream:" ++ lid, result_key], invalidate_cache)
  | _, _, _ => none

/-- `GetLogFile.response`: the JSON-decoded first entry whose key starts with
`"log:result"`; `none` is the `IndexError` raised by `[...][0]` when no such
entry exists. -/
def response (keys_objs : KVMap) : Option CacheValue :=
  ((keys_objs.filter (fun kv => kv.1.startsWith "log:result")).map
    (fun kv => kv.2)).head?

/-- The staleness test of `execute`:
`previous_log_size is None or previous_log_size != current_size`. -/
def log_size_stale (previous : Option Nat) (current : Nat) : Bool :=
  previous.isNone || previous != some current

/-- `GetLogFile.execute`.  The oracle stands for `Task(pathspec, attempt=...)`;
`none` is a raised error (relayed on the stream channel by `streamed_errors`
and failing the call).  `invalidate_cache` is accepted, as in the source, and
never read. -/
def execute (oracle : TaskOracle) (message : LogMessage) (existing_keys : KVMap)
    (invalidate_cache : Bool) : Option KVMap :=
  let task_dict := message.task
  let attempt := task_dict.attempt_id.getD 0
  let limit := message.limit
  let page := message.page
  let logtype := message.logtype
  let reverse := message.reverse_order
  let output_raw := message.raw_log
  match pathspec_for_task task_dict with
  | none => none
  | some pathspec =>
    match log_cache_id task_dict logtype,
          log_result_id task_dict logtype limit page reverse output_raw with
    | some log_key, some result_key =>
      let previous_log_size := (lookupKV existing_keys log_key).bind cacheLogSize
      match oracle pathspec attempt with
      | none => none
      | some task =>
        let current_size := get_log_size task logtype
        let log_size_changed := log_size_stale previous_log_size current_size
        let results :=
          if log_size_changed then
            insertKV [] log_key (CacheValue.logFile current_size (get_log_content task logtype))
          else existing_keys
        if log_size_changed || (lookupKV existing_keys result_key).isNone then
          match (lookupKV results log_key).bind cacheContent with
          | some content =>
            some (insertKV results result_key
              (CacheValue.pageResult (paginated_result content page limit reverse output_raw)))
          | none => none
        else some results
    | _, _ => none

/-! ### Concrete sample inputs -/

/-- A fully populated task dictionary (pathspec `"F/R/S/T"`). -/
def sampleTask : TaskDict :=
  { flow_id := some "F", run_number := some "7", run_id := some "R",
    step_name := some "S", task_id := some "9", task_name := some "T",
    attempt_id := some 0 }

/-- The log cache key of `sampleTask` for stdout. -/
def sampleLogKey : String := "log:file:F/R/S/T.0.log_location_stdout"

/-- The SHA-1 preimage string produced by `lookup_string` for `sampleTask`,
stdout, `limit = l`, `page = 1`, `reverse_order = False`, `raw_log = False`. -/
def samplePreimage (l : Nat) : String :=
  sampleLogKey ++ "_" ++ natRepr l ++ "_" ++ natRepr 1 ++ "_" ++
    pyBoolRepr false ++ "_" ++ pyBoolRepr false

/-- The result key of `sampleTask`, stdout, `limit = 0`, `page = 1`,
no reverse, no raw (left symbolic in the digest). -/
def sampleResultKey : String := "log:result:" ++ sha1Hexdigest (samplePreimage 0)

/-- A cached log file value of size 3. -/
def sampleLogFile : CacheValue :=
  CacheValue.logFile 3 [((none : Option Int), "a")]

/-- A cached paginated result value. -/
def sampleResult : CacheValue :=
  CacheValue.pageResult { content := PageContent.raw "a", pages := 1 }

/-- Cache contents holding `sampleLogFile` under the log key and
`sampleResult` under the result key. -/
def sampleExisting : KVMap :=
  [(sampleLogKey, sampleLogFile), (sampleResultKey, sampleResult)]

/-- A task environment whose stdout size matches `sampleLogFile`. -/
def sampleEnv : TaskEnv :=
  { stdout_size := 3, stderr_size := 0,
    metadata_dict := fun _ => none,
    load_log_legacy := fun _ _ => "",
    loglines := fun _ => [(Dt.mk (some 11), "modern")] }

/-- An oracle that always resolves to `sampleEnv`. -/
def sampleOracle : TaskOracle := fun _ _ => some sampleEnv

/-- The message of `sampleTask` for stdout with default viewing parameters. -/
def sampleMessage : LogMessage :=
  { task := sampleTask, logtype := STDOUT, limit := 0, page := 1,
    reverse_order := false, raw_log := false }

/-- 25 identical records. -/
def records25 : List (Option Int × String) :=
  List.replicate 25 ((none : Option Int), "x")

/-- 10 identical records (rows 0..9 after indexing). -/
def records10 : List (Option Int × String) :=
  List.replicate 10 ((none : Option Int), "x")

/-- A task dictionary whose `run_id` is present but empty while `run_number`
is present. -/
def emptyRunIdTask : TaskDict :=
  { flow_id := some "F", run_number := some "7", run_id := some "",
    step_name := some "S", task_id := some "9", task_name := some "T",
    attempt_id := some 0 }

/-- A task dictionary with `flow_id`, `step_name`, `run_id` and `task_name`
all present (so every identity component of the claim is resolvable) but with
an empty `run_id` and no `run_number`. -/
def emptyRunIdNoRunNumberTask : TaskDict :=
  { flow_id := some "F", run_id := some "", step_name := some "S",
    task_name := some "T" }

/-- An environment with a present but empty legacy log location for stdout,
a non-empty legacy blob, and one modern logline. -/
def emptyLocationEnv : TaskEnv :=
  { stdout_size := 0, stderr_size := 0,
    metadata_dict := fun k => if k = "log_location_stdout" then some "" else none,
    load_log_legacy := fun _ _ => "A\nB",
    loglines := fun _ => [(Dt.mk (some 5), "m")] }

/-- An environment with a non-empty legacy log location for stdout. -/
def legacyEnv : TaskEnv :=
  { stdout_size := 0, stderr_size := 0,
    metadata_dict := fun k => if k = "log_location_stdout" then some "LOC" else none,
    load_log_legacy := fun loc stream => if loc = "LOC" ∧ stream = "stdout" then "A\nB" else "",
    loglines := fun _ => [] }

/-- An environment with no legacy location and two modern loglines, the first
of which fails timestamp conversion. -/
def modernEnv : TaskEnv :=
  { stdout_size := 0, stderr_size := 0,
    metadata_dict := fun _ => none,
    load_log_legacy := fun _ _ => "",
    loglines := fun _ => [(Dt.mk none, "bad"), (Dt.mk (some 17), "good")] }

/-- Value of a decimal digit string (inverse of `natToChars`). -/
def charsVal (l : List Char) : Nat :=
  l.foldl (fun acc c => acc * 10 + charDigitVal c) 0

/-! ### Helper lemmas: decimal rendering -/

theorem decDigitChar_ne_underscore (d : Nat) : decDigitChar d ≠ '_' := by
  rcases d with _ | _ | _ | _ | _ | _ | _ | _ | _ | d
  all_goals first
    | decide
    | (show ('9' : Char) ≠ '_'; decide)

theorem charDigitVal_decDigitChar (d : Nat) (hd : d < 10) :
    charDigitVal (decDigitChar d) = d := by
  interval_cases d <;> decide

theorem underscore_notin_natToChars (fuel n : Nat) : '_' ∉ natToChars fuel n := by
  induction fuel generalizing n with
  | zero => simp [natToChars]
  | succ f ih =>
    rw [natToChars]
    by_cases h10 : n < 10
    · simp only [if_pos h10, List.mem_singleton]
      exact fun h => decDigitChar_ne_underscore n h.symm
    · simp only [if_neg h10, List.mem_append, List.mem_singleton]
      rintro (h | h)
      · exact ih _ h
      · exact decDigitChar_ne_underscore _ h.symm

theorem charsVal_append_digit (l : List Char) (c : Char) :
    charsVal (l ++ [c]) = charsVal l * 10 + charDigitVal c := by
  simp [charsVal, List.foldl_append]

theorem natToChars_val (fuel : Nat) : ∀ n, n < fuel → charsVal (natToChars fuel n) = n := by
  induction fuel with
  | zero => intro n hn; omega
  | succ f ih =>
    intro n hn
    rw [natToChars]
    by_cases h10 : n < 10
    · simp only [if_pos h10]
      simp [charsVal, charDigitVal_decDigitChar n h10]
    · simp only [if_neg h10]
      rw [charsVal_append_digit]
      have hdiv : n / 10 < f := by omega
      rw [ih (n / 10) hdiv, charDigitVal_decDigitChar (n % 10) (by omega)]
      omega

theorem natToChars_inj (fm fn m n : Nat) (hm : m < fm) (hn : n < fn)
    (h : natToChars fm m = natToChars fn n) : m = n := by
  have h1 := natToChars_val fm m hm
  have h2 := natToChars_val fn n hn
  rw [h] at h1
  omega

/-! ### Helper lemmas: splitting on a separator that occurs in neither part -/

theorem splitSep (c : Char) : ∀ (xs1 : List Char) (ys1 : List Char) (xs2 ys2 : List Char),
    c ∉ xs1 → c ∉ xs2 → xs1 ++ c :: ys1 = xs2 ++ c :: ys2 → xs1 = xs2 ∧ ys1 = ys2 := by
  intro xs1
  induction xs1 with
  | nil =>
    intro ys1 xs2 ys2 _ h2 heq
    cases xs2 with
    | nil => simpa using heq
    | cons b t =>
      simp only [List.nil_append, List.cons_append, List.cons.injEq] at heq
      exact absurd (heq.1 ▸ List.mem_cons_self b t) h2
  | cons a t1 ih =>
    intro ys1 xs2 ys2 h1 h2 heq
    cases xs2 with
    | nil =>
      simp only [List.nil_append, List.cons_append, List.cons.injEq] at heq
      exact absurd (heq.1 ▸ List.mem_cons_self a t1) h1
    | cons b t2 =>
      simp only [List.cons_append, List.cons.injEq] at heq
      obtain ⟨hab, hrest⟩ := heq
      have h1t : c ∉ t1 := fun h => h1 (List.mem_cons_of_mem a h)
      have h2t : c ∉ t2 := fun h => h2 (List.mem_cons_of_mem b h)
      obtain ⟨hx, hy⟩ := ih ys1 t2 ys2 h1t h2t hrest
      exact ⟨by rw [hab, hx], hy⟩

/-! ### Helper lemmas: SHA-1 digest bound -/

theorem foldl_preserves {α β : Type} (P : α → Prop) (f : α → β → α)
    (hf : ∀ a b, P (f a b)) : ∀ (l : List β) (a : α), P a → P (l.foldl f a) := by
  intro l
  induction l with
  | nil => intro a ha; simpa using ha
  | cons hd tl ih =>
    intro a ha
    rw [List.foldl_cons]
    exact ih (f a hd) (hf a hd)

def sha1Bounded (st : Sha1State) : Prop :=
  st.1 < 4294967296 ∧ st.2.1 < 4294967296 ∧ st.2.2.1 < 4294967296 ∧
    st.2.2.2.1 < 4294967296 ∧ st.2.2.2.2 < 4294967296

theorem sha1Chunk_bounded (h : Sha1State) (chunk : List Nat) :
    sha1Bounded (sha1Chunk h chunk) := by
  refine ⟨?_, ?_, ?_, ?_, ?_⟩ <;>
    exact Nat.mod_lt _ (by norm_num)

theorem sha1Final_bounded (msg : List Nat) : sha1Bounded (sha1Final msg) := by
  refine foldl_preserves sha1Bounded sha1Chunk sha1Chunk_bounded _ sha1Init ?_
  refine ⟨?_, ?_, ?_, ?_, ?_⟩ <;> norm_num [sha1Init]

/-- The SHA-1 digest value is below `2 ^ 160`. -/
theorem sha1Nat_lt (msg : List Nat) :
    sha1Nat msg < 1461501637330902918203684832716283019655932542976 := by
  obtain ⟨h1, h2, h3, h4, h5⟩ := sha1Final_bounded msg
  rw [sha1Nat]
  omega

theorem underscore_notin_natRepr_data (n : Nat) : '_' ∉ (natRepr n).data :=
  underscore_notin_natToChars (n + 1) n

theorem underscore_notin_pyBoolRepr_data (b : Bool) : '_' ∉ (pyBoolRepr b).data := by
  cases b <;> decide

theorem pyBoolRepr_data_inj (b1 b2 : Bool)
    (h : (pyBoolRepr b1).data = (pyBoolRepr b2).data) : b1 = b2 := by
  cases b1 <;> cases b2 <;> first | rfl | exact absurd h (by decide)

/-- For a fixed task and logtype, the SHA-1 preimage built by `lookup_id`
determines the four viewing parameters: distinct `(limit, page, reverse_order,
raw_log)` tuples produce distinct `_string` values. -/
theorem lookup_string_injective (task : TaskDict) (lt : String)
    (l1 p1 : Nat) (r1 w1 : Bool) (l2 p2 : Nat) (r2 w2 : Bool)
    (hsome : (lookup_string task lt l1 p1 r1 w1).isSome = true)
    (heq : lookup_string task lt l1 p1 r1 w1 = lookup_string task lt l2 p2 r2 w2) :
    l1 = l2 ∧ p1 = p2 ∧ r1 = r2 ∧ w1 = w2 := by
  cases hf : log_cache_id task lt with
  | none =>
    rw [lookup_string, hf] at hsome
    simp at hsome
  | some file =>
    rw [lookup_string, lookup_string, hf] at heq
    simp only [Option.map_some', Option.some.injEq] at heq
    have hd := congrArg String.data heq
    have hu : ("_" : String).data = ['_'] := rfl
    have hnr : ∀ n, (natRepr n).data = natToChars (n + 1) n := fun n => rfl
    simp only [String.data_append, hu, hnr, List.append_assoc, List.singleton_append] at hd
    have hc := List.append_cancel_left hd
    injection hc with hhead htail
    obtain ⟨hl, htail2⟩ := splitSep '_' _ _ _ _
      (underscore_notin_natToChars (l1 + 1) l1) (underscore_notin_natToChars (l2 + 1) l2) htail
    obtain ⟨hp, htail3⟩ := splitSep '_' _ _ _ _
      (underscore_notin_natToChars (p1 + 1) p1) (underscore_notin_natToChars (p2 + 1) p2) htail2
    obtain ⟨hr, hw⟩ := splitSep '_' _ _ _ _
      (underscore_notin_pyBoolRepr_data r1) (underscore_notin_pyBoolRepr_data r2) htail3
    exact ⟨natToChars_inj _ _ _ _ (Nat.lt_succ_self l1) (Nat.lt_succ_self l2) hl,
           natToChars_inj _ _ _ _ (Nat.lt_succ_self p1) (Nat.lt_succ_self p2) hp,
           pyBoolRepr_data_inj r1 r2 hr,
           pyBoolRepr_data_inj w1 w2 hw⟩

/-! ### Pagination lemmas and claims -/

theorem format_loglines_snd (content : List (Option Int × String)) (page limit : Nat)
    (rev : Bool) :
    (format_loglines content page limit rev).2 =
      if limit ≠ 0 then max (content.length / limit) 1 else 1 := by
  simp only [format_loglines, List.length_map, List.enum_length]
  split <;> split <;> rfl

/-- C3: in non-raw mode the page count is `max (totalRecords / limit) 1` for
`limit > 0` and `1` for `limit = 0`, and an out-of-bounds page request returns
empty content with that page count; in particular 25 records with `limit = 10`
give 2 pages, and `page = 3` against 2 pages gives `([], 2)`. -/
theorem c3_format_loglines_pages :
    (∀ (content : List (Option Int × String)) (page limit : Nat) (rev : Bool),
      (0 < limit →
        (format_loglines content page limit rev).2 = max (content.length / limit) 1) ∧
      (limit = 0 → (format_loglines content page limit rev).2 = 1) ∧
      ((format_loglines content page limit rev).2 < page →
        (format_loglines content page limit rev).1 = [])) ∧
    (format_loglines records25 1 10 false).2 = 2 ∧
    format_loglines records25 3 10 false = ([], 2) := by
  refine ⟨fun content page limit rev => ⟨?_, ?_, ?_⟩, by decide, by decide⟩
  · intro hl
    rw [format_loglines_snd]
    simp [Nat.pos_iff_ne_zero.mp hl]
  · intro hl
    rw [format_loglines_snd]
    simp [hl]
  · intro hlt
    rw [format_loglines_snd] at hlt
    simp only [format_loglines]
    rw [if_pos]
    simpa [List.length_map, List.enum_length] using hlt

theorem c3_format_loglines_pages_witness :
    0 < 10 ∧ (format_loglines records25 1 10 false).2 = max (records25.length / 10) 1 :=
  ⟨by decide, (c3_format_loglines_pages.1 records25 1 10 false).1 (by decide)⟩

/-- C4: in non-raw mode with a valid page, rows are indexed zero-based in
fetch order, the indexed sequence is reversed before the offset
`limit * (page - 1)` is applied, and the content is the slice
`[offset, offset + limit)` of the (possibly reversed) sequence — the whole
sequence when `limit = 0`; 10 records with `limit = 3`, `page = 1`,
`reverse = true` return rows `[9, 8, 7]`. -/
theorem c4_reverse_before_slice :
    (∀ (content : List (Option Int × String)) (page limit : Nat) (rev : Bool),
      1 ≤ page → page ≤ (format_loglines content page limit rev).2 →
      (format_loglines content page limit rev).1 =
        (let lines := content.enum.map (fun rl => LogLine.mk rl.1 rl.2.1 rl.2.2)
         let ordered := if rev then lines.reverse else lines
         if limit = 0 then ordered else (ordered.drop (limit * (page - 1))).take limit)) ∧
    (∀ content : List (Option Int × String),
      (content.enum.map (fun rl => LogLine.mk rl.1 rl.2.1 rl.2.2)).map (fun ll => ll.row) =
        List.range content.length) ∧
    (format_loglines records10 1 3 true).1.map (fun ll => ll.row) = [9, 8, 7] := by
  refine ⟨fun content page limit rev h1 hle => ?_, fun content => ?_, by decide⟩
  · rw [format_loglines_snd] at hle
    simp only [format_loglines]
    rw [if_neg]
    · by_cases hlim : limit = 0 <;> simp [hlim]
    · simp only [List.length_map, List.enum_length]
      omega
  · rw [List.map_map]
    exact List.enum_map_fst content

theorem c4_reverse_before_slice_witness :
    1 ≤ 1 ∧ 1 ≤ (format_loglines records10 1 3 true).2 ∧
      (format_loglines records10 1 3 true).1 =
        (let lines := records10.enum.map (fun rl => LogLine.mk rl.1 rl.2.1 rl.2.2)
         let ordered := if true then lines.reverse else lines
         if 3 = 0 then ordered else (ordered.drop (3 * (1 - 1))).take 3) :=
  ⟨by decide, by decide,
    c4_reverse_before_slice.1 records10 1 3 true (by decide) (by decide)⟩

/-- C5: raw mode joins all record line-texts with newlines in original order
and reports one page, for every limit, page and reverse flag. -/
theorem c5_raw_mode (content : List (Option Int × String)) (page limit : Nat)
    (rev : Bool) :
    paginated_result content page limit rev true =
      { content := PageContent.raw (String.intercalate "\n" (content.map (fun dl => dl.2))),
        pages := 1 } := by
  simp [paginated_result]

/-! ### Pathspec claims -/

/-- C6 counterexample: a task whose `run_id` is present (the empty string)
alongside `run_number = "7"` builds its pathspec from `run_number`, not from
`run_id` — `task.get('run_id') or task['run_number']` tests truthiness, not
presence. -/
theorem c6_counterexample :
    emptyRunIdTask.run_id = some "" ∧ emptyRunIdTask.run_number = some "7" ∧
    emptyRunIdTask.task_name = some "T" ∧ emptyRunIdTask.task_id = some "9" ∧
    pathspec_for_task emptyRunIdTask = some "F/7/S/T" ∧
    pathspec_for_task emptyRunIdTask ≠ some "F//S/T" := by
  decide

/-- C6 (amended): when `run_id` is present and non-empty it takes precedence
over `run_number`, and when `task_name` is present and non-empty it takes
precedence over `task_id`, yielding
`"{flow_id}/{run_id}/{step_name}/{task_name}"`. -/
theorem c6_pathspec_precedence (task : TaskDict) (flow rid step tname : String)
    (hf : task.flow_id = some flow) (hs : task.step_name = some step)
    (hr : task.run_id = some rid) (hrne : rid ≠ "")
    (ht : task.task_name = some tname) (htne : tname ≠ "") :
    pathspec_for_task task =
      some (flow ++ "/" ++ rid ++ "/" ++ step ++ "/" ++ tname) := by
  simp [pathspec_for_task, pyOrStr, hf, hs, hr, ht, hrne, htne]

theorem c6_pathspec_precedence_witness :
    sampleTask.flow_id = some "F" ∧ sampleTask.step_name = some "S" ∧
    sampleTask.run_id = some "R" ∧ ("R" : String) ≠ "" ∧
    sampleTask.task_name = some "T" ∧ ("T" : String) ≠ "" ∧
    pathspec_for_task sampleTask =
      some ("F" ++ "/" ++ "R" ++ "/" ++ "S" ++ "/" ++ "T") :=
  ⟨rfl, rfl, rfl, by decide, rfl, by decide,
    c6_pathspec_precedence sampleTask "F" "R" "S" "T" rfl rfl rfl (by decide) rfl (by decide)⟩

/-- C7 counterexample: a task with `flow_id`, `step_name`, `run_id` and
`task_name` all present (every identity component of the claim resolvable)
whose pathspec derivation nevertheless fails, because the present `run_id` is
empty and `run_number` is absent. -/
theorem c7_counterexample :
    pathspec_for_task emptyRunIdNoRunNumberTask = none ∧
    ¬ (emptyRunIdNoRunNumberTask.flow_id = none ∨
       emptyRunIdNoRunNumberTask.step_name = none ∨
       (emptyRunIdNoRunNumberTask.run_id = none ∧
        emptyRunIdNoRunNumberTask.run_number = none) ∨
       (emptyRunIdNoRunNumberTask.task_name = none ∧
        emptyRunIdNoRunNumberTask.task_id = none)) := by
  decide

theorem pyOrStr_eq_none_iff (a b : Option String) :
    pyOrStr a b = none ↔ ((a = none ∨ a = some "") ∧ b = none) := by
  cases a with
  | none => simp [pyOrStr]
  | some s => by_cases hs : s = "" <;> simp [pyOrStr, hs]

theorem pathspec_eq_none_iff (task : TaskDict) :
    pathspec_for_task task = none ↔
      task.flow_id = none ∨ pyOrStr task.run_id task.run_number = none ∨
      task.step_name = none ∨ pyOrStr task.task_name task.task_id = none := by
  cases hf : task.flow_id <;> cases hr : pyOrStr task.run_id task.run_number <;>
    cases hs : task.step_name <;> cases ht : pyOrStr task.task_name task.task_id <;>
      simp [pathspec_for_task, hf, hr, hs, ht]

/-- C7 (amended): pathspec derivation fails exactly when `flow_id` is absent,
`step_name` is absent, `run_id` is absent or empty while `run_number` is
absent, or `task_name` is absent or empty while `task_id` is absent; and the
failure occurs before any cache or metadata access — `execute` returns the
error for every oracle, every cache content and every flag value. -/
theorem c7_missing_field :
    (∀ task : TaskDict,
      pathspec_for_task task = none ↔
        (task.flow_id = none ∨ task.step_name = none ∨
         ((task.run_id = none ∨ task.run_id = some "") ∧ task.run_number = none) ∨
         ((task.task_name = none ∨ task.task_name = some "") ∧ task.task_id = none))) ∧
    (∀ (oracle1 oracle2 : TaskOracle) (msg : LogMessage) (existing : KVMap)
       (inv1 inv2 : Bool),
      pathspec_for_task msg.task = none →
      execute oracle1 msg existing inv1 = none ∧
      execute oracle1 msg existing inv1 = execute oracle2 msg existing inv2) := by
  constructor
  · intro task
    rw [pathspec_eq_none_iff, pyOrStr_eq_none_iff, pyOrStr_eq_none_iff]
    tauto
  · intro oracle1 oracle2 msg existing inv1 inv2 hps
    constructor <;> simp [execute, hps]

theorem c7_missing_field_witness :
    pathspec_for_task
      (LogMessage.mk emptyRunIdNoRunNumberTask STDOUT 0 1 false false).task = none ∧
    execute (fun _ _ => none)
      (LogMessage.mk emptyRunIdNoRunNumberTask STDOUT 0 1 false false) [] false = none :=
  ⟨by decide,
    (c7_missing_field.2 (fun _ _ => none) (fun _ _ => some sampleEnv)
      (LogMessage.mk emptyRunIdNoRunNumberTask STDOUT 0 1 false false) [] false true
      (by decide)).1⟩

/-! ### Log normalization claims -/

/-- C9 counterexample: a legacy log location that is present but empty is not
treated as legacy — `if log_location:` tests truthiness, so the content comes
from the modern logline path instead of the referenced blob. -/
theorem c9_counterexample :
    emptyLocationEnv.metadata_dict "log_location_stdout" = some "" ∧
    get_log_content emptyLocationEnv STDOUT = [(some 5, "m")] ∧
    get_log_content emptyLocationEnv STDOUT ≠
      (pySplitNewlines (emptyLocationEnv.load_log_legacy "" "stdout")).map
        (fun line => ((none : Option Int), line)) := by
  decide

/-- C9 (amended): when the legacy log location is present and non-empty, the
content is the referenced blob split on newlines with every timestamp null;
otherwise (absent or present-but-empty location) each modern
`(datetime, line)` pair is converted to `(epoch-ms, line)` where a failed
conversion yields a null timestamp for exactly that record, the other records
being unaffected. -/
theorem c9_normalization (env : TaskEnv) (logtype stream : String)
    (hstream : stream = (if logtype = STDERR then "stderr" else "stdout")) :
    (∀ loc, env.metadata_dict ("log_location_" ++ stream) = some loc → loc ≠ "" →
      get_log_content env logtype =
        (pySplitNewlines (env.load_log_legacy loc stream)).map
          (fun line => ((none : Option Int), line)) ∧
      ∀ p ∈ get_log_content env logtype, p.1 = (none : Option Int)) ∧
    ((env.metadata_dict ("log_location_" ++ stream) = none ∨
      env.metadata_dict ("log_location_" ++ stream) = some "") →
      get_log_content env logtype =
        (env.loglines stream).map (fun dl => (dl.1.timestampMs, dl.2)) ∧
      ∀ (i : Nat) (dt : Dt) (line : String),
        (env.loglines stream)[i]? = some (dt, line) →
        (get_log_content env logtype)[i]? = some (dt.timestampMs, line)) := by
  subst hstream
  constructor
  · intro loc hloc hne
    have hcontent : get_log_content env logtype =
        (pySplitNewlines (env.load_log_legacy loc (if logtype = STDERR then "stderr" else "stdout"))).map
          (fun line => ((none : Option Int), line)) := by
      simp [get_log_content, hloc, hne]
    refine ⟨hcontent, ?_⟩
    intro p hp
    rw [hcontent] at hp
    obtain ⟨line, _, hline⟩ := List.mem_map.mp hp
    rw [← hline]
  · intro hmd
    have hcontent : get_log_content env logtype =
        (env.loglines (if logtype = STDERR then "stderr" else "stdout")).map
          (fun dl => (dl.1.timestampMs, dl.2)) := by
      cases hmd with
      | inl h => simp [get_log_content, _datetime_to_epoch, h]
      | inr h => simp [get_log_content, _datetime_to_epoch, h]
    refine ⟨hcontent, ?_⟩
    intro i dt line hi
    rw [hcontent, List.getElem?_map, hi]
    rfl

theorem c9_normalization_witness :
    ("stdout" : String) = (if STDOUT = STDERR then "stderr" else "stdout") ∧
    legacyEnv.metadata_dict ("log_location_" ++ "stdout") = some "LOC" ∧
    ("LOC" : String) ≠ "" ∧
    get_log_content legacyEnv STDOUT =
      (pySplitNewlines (legacyEnv.load_log_legacy "LOC" "stdout")).map
        (fun line => ((none : Option Int), line)) :=
  ⟨by decide, by decide, by decide,
    ((c9_normalization legacyEnv STDOUT "stdout" (by decide)).1 "LOC"
      (by decide) (by decide)).1⟩

/-! ### Response extraction claim -/

/-- C10: `response` returns the decoded value of the first entry whose key
starts with `"log:result"`, and fails (the `IndexError` of `[...][0]`,
modelled as `none`) when the supplied mapping has no such key. -/
theorem c10_response :
    (∀ m : KVMap,
      response m =
        (m.find? (fun kv => kv.1.startsWith "log:result")).map (fun kv => kv.2)) ∧
    (∀ m : KVMap, (∀ kv ∈ m, kv.1.startsWith "log:result" = false) →
      response m = none) := by
  have hmain : ∀ m : KVMap,
      response m =
        (m.find? (fun kv => kv.1.startsWith "log:result")).map (fun kv => kv.2) := by
    intro m
    induction m with
    | nil => rfl
    | cons kv t ih =>
      cases h : kv.1.startsWith "log:result" with
      | true => simp [response, List.filter_cons, List.find?_cons, h]
      | false =>
        simp only [response, List.filter_cons, List.find?_cons, h] at ih ⊢
        simp only [Bool.false_eq_true, if_false]
        exact ih
  refine ⟨hmain, fun m hall => ?_⟩
  rw [hmain, List.find?_eq_none.mpr ?_]
  · rfl
  · intro kv hkv
    simp [hall kv hkv]

theorem c10_response_witness :
    (∀ kv ∈ ([("x", sampleResult)] : KVMap), kv.1.startsWith "log:result" = false) ∧
    response [("x", sampleResult)] = none :=
  ⟨by decide, c10_response.2 [("x", sampleResult)] (by decide)⟩

/-! ### invalidate_cache independence -/

/-- C8: `invalidate_cache` has no influence: the message built by
`format_request` is identical for both flag values (it carries no
invalidate_cache field), and `execute` returns identical results for
`invalidate_cache = true` and `false` on every oracle, message and cache
state. -/
theorem c8_invalidate_cache_independent :
    (∀ (task : TaskDict) (logtype : String) (limit page : Nat)
       (reverse_order raw_log : Bool) (b1 b2 : Bool),
      (format_request task logtype limit page reverse_order raw_log b1).map
        (fun x => x.1) =
      (format_request task logtype limit page reverse_order raw_log b2).map
        (fun x => x.1)) ∧
    (∀ (oracle : TaskOracle) (msg : LogMessage) (existing : KVMap) (b1 b2 : Bool),
      execute oracle msg existing b1 = execute oracle msg existing b2) := by
  constructor
  · intro task logtype limit page reverse_order raw_log b1 b2
    cases h1 : log_cache_id task logtype <;>
      cases h2 : log_result_id task logtype limit page reverse_order raw_log <;>
        cases h3 : lookup_id task logtype limit page reverse_order raw_log <;>
          simp [format_request, h1, h2, h3]
  · intro oracle msg existing b1 b2
    rfl

/-! ### Staleness short-circuit -/

/-- C2: content is stale exactly when no previous size exists or it differs
from the current size; when the previous cached size equals the current size
and the exact result key is already cached, `execute` returns the supplied
entries unchanged — for every task environment with that size, so no log
content is fetched and no page is recomputed. -/
theorem c2_staleness_short_circuit :
    (∀ (previous : Option Nat) (current : Nat),
      log_size_stale previous current = true ↔
        (previous = none ∨ previous ≠ some current)) ∧
    (∀ (oracle : TaskOracle) (msg : LogMessage) (existing : KVMap) (inv : Bool)
       (ps log_key result_key : String) (env : TaskEnv) (sz : Nat)
       (content : List (Option Int × String)) (res : CacheValue),
      pathspec_for_task msg.task = some ps →
      log_cache_id msg.task msg.logtype = some log_key →
      log_result_id msg.task msg.logtype msg.limit msg.page msg.reverse_order
        msg.raw_log = some result_key →
      oracle ps (msg.task.attempt_id.getD 0) = some env →
      lookupKV existing log_key = some (CacheValue.logFile sz content) →
      get_log_size env msg.logtype = sz →
      lookupKV existing result_key = some res →
      execute oracle msg existing inv = some existing) := by
  constructor
  · intro previous current
    simp [log_size_stale, Option.isNone_iff_eq_none, bne_iff_ne]
  · intro oracle msg existing inv ps log_key result_key env sz content res
      hps hlk hrk horacle hfile hsz hres
    simp [execute, hps, hlk, hrk, horacle, hfile, hsz, hres, log_size_stale,
      cacheLogSize]

theorem lookupKV_cons_self (k : String) (v : CacheValue) (t : KVMap) :
    lookupKV ((k, v) :: t) k = some v := by
  simp [lookupKV, List.find?]

theorem lookupKV_cons_ne (k k' : String) (v : CacheValue) (t : KVMap)
    (h : (k == k') = false) :
    lookupKV ((k, v) :: t) k' = lookupKV t k' := by
  simp [lookupKV, List.find?, h]

theorem c2_staleness_short_circuit_witness :
    pathspec_for_task sampleMessage.task = some "F/R/S/T" ∧
    log_cache_id sampleMessage.task sampleMessage.logtype = some sampleLogKey ∧
    log_result_id sampleMessage.task sampleMessage.logtype sampleMessage.limit
      sampleMessage.page sampleMessage.reverse_order sampleMessage.raw_log
      = some sampleResultKey ∧
    sampleOracle "F/R/S/T" (sampleMessage.task.attempt_id.getD 0) = some sampleEnv ∧
    lookupKV sampleExisting sampleLogKey =
      some (CacheValue.logFile 3 [((none : Option Int), "a")]) ∧
    get_log_size sampleEnv sampleMessage.logtype = 3 ∧
    lookupKV sampleExisting sampleResultKey = some sampleResult ∧
    execute sampleOracle sampleMessage sampleExisting false = some sampleExisting := by
  have hrk : log_result_id sampleMessage.task sampleMessage.logtype sampleMessage.limit
      sampleMessage.page sampleMessage.reverse_order sampleMessage.raw_log
      = some sampleResultKey := by
    have h1 : lookup_string sampleTask STDOUT 0 1 false false = some (samplePreimage 0) := by
      decide
    show log_result_id sampleTask STDOUT 0 1 false false = some sampleResultKey
    rw [log_result_id, lookup_id, h1]
    rfl
  have hneq : (sampleLogKey == sampleResultKey) = false := by
    decide
  have hfile : lookupKV sampleExisting sampleLogKey =
      some (CacheValue.logFile 3 [((none : Option Int), "a")]) :=
    lookupKV_cons_self sampleLogKey sampleLogFile [(sampleResultKey, sampleResult)]
  have hres : lookupKV sampleExisting sampleResultKey = some sampleResult :=
    (lookupKV_cons_ne sampleLogKey sampleResultKey sampleLogFile
      [(sampleResultKey, sampleResult)] hneq).trans
      (lookupKV_cons_self sampleResultKey sampleResult [])
  refine ⟨by decide, by decide, hrk, rfl, hfile, rfl, hres, ?_⟩
  exact c2_staleness_short_circuit.2 sampleOracle sampleMessage sampleExisting false
    "F/R/S/T" sampleLogKey sampleResultKey sampleEnv 3 [((none : Option Int), "a")]
    sampleResult (by decide) (by decide) hrk rfl hfile rfl hres

/-! ### Key derivation: determinism, preimage injectivity, and the
pigeonhole collision -/

/-- C1 (amended): key derivation is deterministic — identical (task, logtype,
limit, page, reverse_order, raw_log) inputs always yield identical
`log_result_id` and `lookup_id` (hence identical result and stream keys,
which are `"log:result:"`/`"log:stream:"` plus `lookup_id`) — and, for a
fixed derivable task and logtype, any two tuples differing in limit, page,
reverse_order or raw_log yield distinct SHA-1 input strings.  Distinctness of
the final hex keys holds only up to SHA-1 collisions, which must exist over
the unbounded parameter space (see the counterexample). -/
theorem c1_key_derivation :
    (∀ (t1 t2 : TaskDict) (lt1 lt2 : String) (l1 p1 : Nat) (r1 w1 : Bool)
       (l2 p2 : Nat) (r2 w2 : Bool),
      t1 = t2 → lt1 = lt2 → l1 = l2 → p1 = p2 → r1 = r2 → w1 = w2 →
      log_result_id t1 lt1 l1 p1 r1 w1 = log_result_id t2 lt2 l2 p2 r2 w2 ∧
      lookup_id t1 lt1 l1 p1 r1 w1 = lookup_id t2 lt2 l2 p2 r2 w2) ∧
    (∀ (task : TaskDict) (lt : String) (l1 p1 : Nat) (r1 w1 : Bool)
       (l2 p2 : Nat) (r2 w2 : Bool),
      (lookup_string task lt l1 p1 r1 w1).isSome = true →
      lookup_string task lt l1 p1 r1 w1 = lookup_string task lt l2 p2 r2 w2 →
      l1 = l2 ∧ p1 = p2 ∧ r1 = r2 ∧ w1 = w2) := by
  constructor
  · intro t1 t2 lt1 lt2 l1 p1 r1 w1 l2 p2 r2 w2 h1 h2 h3 h4 h5 h6
    subst h1; subst h2; subst h3; subst h4; subst h5; subst h6
    exact ⟨rfl, rfl⟩
  · exact lookup_string_injective

theorem c1_key_derivation_witness :
    (sampleTask = sampleTask ∧
      log_result_id sampleTask STDOUT 0 1 false false =
        log_result_id sampleTask STDOUT 0 1 false false) ∧
    (lookup_string sampleTask STDOUT 2 1 false false).isSome = true ∧
    lookup_string sampleTask STDOUT 2 1 false false =
      lookup_string sampleTask STDOUT 2 1 false false ∧
    (2 = 2 ∧ 1 = 1 ∧ false = false ∧ false = false) :=
  ⟨⟨rfl, (c1_key_derivation.1 sampleTask sampleTask STDOUT STDOUT 0 1 false false
      0 1 false false rfl rfl rfl rfl rfl rfl).1⟩,
   by decide, rfl,
   c1_key_derivation.2 sampleTask STDOUT 2 1 false false 2 1 false false
     (by decide) rfl⟩

/-- C1 counterexample: the claim that any two parameter tuples differing in
limit, page, reverse_order or raw_log yield distinct result keys is false:
`log_result_id` factors through a 160-bit SHA-1 digest, so over the
infinitely many limits some two distinct tuples necessarily share their
result key (and hence their stream key). -/
theorem c1_counterexample :
    ¬ (∀ (l1 p1 : Nat) (r1 w1 : Bool) (l2 p2 : Nat) (r2 w2 : Bool),
        (l1, p1, r1, w1) ≠ (l2, p2, r2, w2) →
        log_result_id sampleTask STDOUT l1 p1 r1 w1 ≠
          log_result_id sampleTask STDOUT l2 p2 r2 w2) := by
  intro h
  have hkey : ∀ l : Nat, log_result_id sampleTask STDOUT l 1 false false =
      some ("log:result:" ++ hex40 (sha1Nat (utf8Bytes (samplePreimage l)))) := by
    intro l
    have h1 : lookup_string sampleTask STDOUT l 1 false false =
        some (samplePreimage l) := by
      rw [lookup_string,
        show log_cache_id sampleTask STDOUT = some sampleLogKey from by decide]
      rfl
    rw [log_result_id, lookup_id, h1]
    rfl
  let g : Nat → Fin 1461501637330902918203684832716283019655932542976 :=
    fun l => ⟨sha1Nat (utf8Bytes (samplePreimage l)), sha1Nat_lt _⟩
  obtain ⟨x, y, hne, heq⟩ := Finite.exists_ne_map_eq_of_infinite g
  have hv : sha1Nat (utf8Bytes (samplePreimage x)) =
      sha1Nat (utf8Bytes (samplePreimage y)) := congrArg Fin.val heq
  exact h x 1 false false y 1 false false (by simp [hne])
    (by rw [hkey x, hkey y, hv])
